import Mathlib

/-!
Verification of the hit-classification step in
`core/src/search_stores/search_types.rs`: a shallow embedding of
`SearchItem::from_hit`, which maps a raw JSON search hit to a typed
`SearchItem` variant, together with theorems about its classification and
error behaviour.
-/

/-- JSON values, modelling `serde_json::Value`. Object fields are kept as an
association list; `get` looks a key up in it, as `Value::get` does. -/
inductive Json where
  | null : Json
  | bool : Bool → Json
  | num : Int → Json
  | str : String → Json
  | arr : List Json → Json
  | obj : List (String × Json) → Json
deriving Repr

/-- Field access on a JSON value, modelling `serde_json::Value::get(key)`:
on an object it returns the field named `key` when present, on every other
value it returns `none`. -/
def Json.get (v : Json) (key : String) : Option Json :=
  match v with
  | .obj fields => fields.lookup key
  | _ => none

/-- Modelling `serde_json::Value::as_str`: the wrapped string on a string
value, `none` otherwise. -/
def Json.as_str : Json → Option String
  | .str s => some s
  | _ => none

/-- Character-wise comparison used to model Rust `str::starts_with`:
`charsStartWith cs ds` holds when `ds` is an initial segment of `cs`. -/
def charsStartWith : List Char → List Char → Bool
  | _, [] => true
  | [], _ :: _ => false
  | c :: cs, d :: ds => c == d && charsStartWith cs ds

/-- Modelling Rust `str::starts_with(pat)`: the string `s` begins with the
characters of `p`. -/
def strStartsWith (s p : String) : Bool :=
  charsStartWith s.toList p.toList

/-- Modelled from the spec: the constant `DATA_SOURCE_NODE_INDEX_NAME` is
declared in `data_sources/node.rs`, which is not among the sources. The spec
pins its behaviour through its scenarios: it matches the index name
`data_source_node_v3` and does not match `data_source_v3`. -/
def DATA_SOURCE_NODE_INDEX_NAME : String := "data_source_node"

/-- Modelled from the spec: the data-source index family shares the textual
beginning `data_source` with the node index family. -/
def DATA_SOURCE_INDEX_FAMILY : String := "data_source"

/-- Modelled from the spec: `NodeESDocument` and its `From<Value>` decoder
live in `data_sources/node.rs`, outside the sources. The spec treats each
decoder as a pure, total transformation of the payload, so the document is
modelled as retaining the payload it was decoded from. -/
structure NodeESDocument where
  payload : Json
deriving Repr

/-- Modelled from the spec: `DataSourceESDocument` and its `From<Value>`
decoder live in `data_sources/data_source.rs`, outside the sources; modelled
like `NodeESDocument`. -/
structure DataSourceESDocument where
  payload : Json
deriving Repr

/-- The decoder `NodeESDocument::from(source.clone())`. -/
def NodeESDocument.fromValue (v : Json) : NodeESDocument := ⟨v⟩

/-- The decoder `DataSourceESDocument::from(source.clone())`. -/
def DataSourceESDocument.fromValue (v : Json) : DataSourceESDocument := ⟨v⟩

/-- The classified search result, `enum SearchItem`. -/
inductive SearchItem where
  | Node : NodeESDocument → SearchItem
  | DataSource : DataSourceESDocument → SearchItem
deriving Repr

/-- Embedding of `SearchItem::from_hit`. The Rust function extracts
`_source` (failing with the anyhow message `Missing _source`), then
`_index` as a string (failing with `Missing _index`), then returns `Node`
when the index name starts with `DATA_SOURCE_NODE_INDEX_NAME` and
`DataSource` otherwise. -/
def SearchItem.from_hit (hit : Json) : Except String SearchItem :=
  match hit.get "_source" with
  | none => .error "Missing _source"
  | some source =>
    match (hit.get "_index").bind Json.as_str with
    | none => .error "Missing _index"
    | some index =>
      if strStartsWith index DATA_SOURCE_NODE_INDEX_NAME then
        .ok (.Node (NodeESDocument.fromValue source))
      else
        .ok (.DataSource (DataSourceESDocument.fromValue source))

/-! ### Helper lemmas shared by the claim theorems below -/

theorem from_hit_eq_node_of (hit source : Json) (index : String)
    (hs : hit.get "_source" = some source)
    (hi : hit.get "_index" = some (Json.str index))
    (hp : strStartsWith index DATA_SOURCE_NODE_INDEX_NAME = true) :
    SearchItem.from_hit hit = .ok (.Node (NodeESDocument.fromValue source)) := by
  unfold SearchItem.from_hit
  rw [hs, hi]
  simp [Json.as_str, hp]

theorem from_hit_eq_ds_of (hit source : Json) (index : String)
    (hs : hit.get "_source" = some source)
    (hi : hit.get "_index" = some (Json.str index))
    (hp : strStartsWith index DATA_SOURCE_NODE_INDEX_NAME = false) :
    SearchItem.from_hit hit = .ok (.DataSource (DataSourceESDocument.fromValue source)) := by
  unfold SearchItem.from_hit
  rw [hs, hi]
  simp [Json.as_str, hp]

theorem from_hit_eq_missing_source_of (hit : Json)
    (hs : hit.get "_source" = none) :
    SearchItem.from_hit hit = .error "Missing _source" := by
  unfold SearchItem.from_hit
  rw [hs]

theorem from_hit_eq_missing_index_of (hit source : Json)
    (hs : hit.get "_source" = some source)
    (hi : ∀ s, hit.get "_index" ≠ some (Json.str s)) :
    SearchItem.from_hit hit = .error "Missing _index" := by
  unfold SearchItem.from_hit
  rw [hs]
  have hnone : (hit.get "_index").bind Json.as_str = none := by
    cases hv : hit.get "_index" with
    | none => rfl
    | some v =>
      cases v with
      | null => rfl
      | bool b => rfl
      | num n => rfl
      | str s => exact absurd hv (hi s)
      | arr xs => rfl
      | obj fs => rfl
  rw [hnone]

/-! ### Claim theorems -/

/-- C1: for every hit whose `_index` field is a string starting with
`DATA_SOURCE_NODE_INDEX_NAME` and whose `_source` field is present,
`from_hit` returns `Ok` with the `SearchItem.Node` variant wrapping the
document decoded from the payload. -/
theorem C1_node_variant (hit source : Json) (index : String)
    (hs : hit.get "_source" = some source)
    (hi : hit.get "_index" = some (Json.str index))
    (hp : strStartsWith index DATA_SOURCE_NODE_INDEX_NAME = true) :
    SearchItem.from_hit hit = .ok (.Node (NodeESDocument.fromValue source)) :=
  from_hit_eq_node_of hit source index hs hi hp

/-- C1 witness: scenario A, a hit with index `data_source_node_v3` and
payload with id `n1` classifies as a `Node` wrapping that payload. -/
theorem C1_node_variant_witness :
    SearchItem.from_hit
        (.obj [("_index", .str "data_source_node_v3"),
               ("_source", .obj [("id", .str "n1")])])
      = .ok (.Node (NodeESDocument.fromValue (.obj [("id", .str "n1")]))) :=
  C1_node_variant _ _ "data_source_node_v3" rfl rfl (by decide)

/-- C2: for every hit with `_source` present and a string `_index` that
starts with the shared `data_source` family name but not with the longer
node-index name, `from_hit` returns `Ok` with the `SearchItem.DataSource`
variant; the node check runs first, so the shorter shared beginning never
captures node-index hits. -/
theorem C2_data_source_variant (hit source : Json) (index : String)
    (hs : hit.get "_source" = some source)
    (hi : hit.get "_index" = some (Json.str index))
    (_hd : strStartsWith index DATA_SOURCE_INDEX_FAMILY = true)
    (hn : strStartsWith index DATA_SOURCE_NODE_INDEX_NAME = false) :
    SearchItem.from_hit hit = .ok (.DataSource (DataSourceESDocument.fromValue source)) :=
  from_hit_eq_ds_of hit source index hs hi hn

/-- C2 witness: scenario B, a hit with index `data_source_v3` and payload
with id `d1` classifies as a `DataSource` wrapping that payload. -/
theorem C2_data_source_variant_witness :
    SearchItem.from_hit
        (.obj [("_index", .str "data_source_v3"),
               ("_source", .obj [("id", .str "d1")])])
      = .ok (.DataSource (DataSourceESDocument.fromValue (.obj [("id", .str "d1")]))) :=
  C2_data_source_variant _ _ "data_source_v3" rfl rfl (by decide) (by decide)

/-- C3 counterexample: a hit whose index name `unrelated_index_x` matches no
registered family still yields `Ok` with the `DataSource` variant, so
`from_hit` does not fail with an `UnknownIndexKind` error there. -/
theorem C3_counterexample :
    SearchItem.from_hit
        (.obj [("_index", .str "unrelated_index_x"),
               ("_source", .obj [("id", .str "d1")])])
      = .ok (.DataSource (DataSourceESDocument.fromValue (.obj [("id", .str "d1")]))) :=
  from_hit_eq_ds_of _ _ "unrelated_index_x" rfl rfl (by decide)

/-- C3 amended: `from_hit` never fails with an `UnknownIndexKind` error; its
only error messages are `Missing _source` and `Missing _index`, and every
hit with both fields well-formed is classified into some variant (unmatched
index names fall back to `DataSource`). -/
theorem C3_amended_error_messages (hit : Json) (e : String)
    (h : SearchItem.from_hit hit = .error e) :
    e = "Missing _source" ∨ e = "Missing _index" := by
  unfold SearchItem.from_hit at h
  split at h
  · exact Or.inl (Except.error.inj h).symm
  · split at h
    · exact Or.inr (Except.error.inj h).symm
    · split at h <;> cases h

/-- C3 amended witness: on the hit `null`, `from_hit` fails with the
message `Missing _source`, which is among the two possible messages. -/
theorem C3_amended_error_messages_witness :
    "Missing _source" = "Missing _source" ∨ "Missing _source" = "Missing _index" :=
  C3_amended_error_messages Json.null "Missing _source" rfl

/-- C4: for every hit with `_source` present and a string `_index` that does
not start with the node-index name — including names matching no registered
family — `from_hit` falls through to the last-registered kind and returns
`Ok` with the `SearchItem.DataSource` variant rather than an error. -/
theorem C4_fallthrough_to_data_source (hit source : Json) (index : String)
    (hs : hit.get "_source" = some source)
    (hi : hit.get "_index" = some (Json.str index))
    (hn : strStartsWith index DATA_SOURCE_NODE_INDEX_NAME = false) :
    SearchItem.from_hit hit = .ok (.DataSource (DataSourceESDocument.fromValue source)) :=
  from_hit_eq_ds_of hit source index hs hi hn

/-- C4 witness: a hit with the unregistered index name `totally_unrelated`
still classifies as `DataSource`. -/
theorem C4_fallthrough_to_data_source_witness :
    SearchItem.from_hit
        (.obj [("_index", .str "totally_unrelated"), ("_source", .null)])
      = .ok (.DataSource (DataSourceESDocument.fromValue .null)) :=
  C4_fallthrough_to_data_source _ _ "totally_unrelated" rfl rfl (by decide)

/-- C5: for every hit lacking a `_source` field, `from_hit` returns the
error `Missing _source` and produces no `SearchItem`. -/
theorem C5_missing_source_error (hit : Json)
    (hs : hit.get "_source" = none) :
    SearchItem.from_hit hit = .error "Missing _source" :=
  from_hit_eq_missing_source_of hit hs

/-- C5 witness: scenario C, a hit without `_source` fails with the message
`Missing _source`. -/
theorem C5_missing_source_error_witness :
    SearchItem.from_hit (.obj [("_index", .str "data_source_node_v3")])
      = .error "Missing _source" :=
  C5_missing_source_error _ rfl

/-- C6: for every hit with `_source` present whose `_index` field is absent
or not a JSON string, `from_hit` returns the error `Missing _index` and
produces no `SearchItem`. -/
theorem C6_missing_index_error (hit source : Json)
    (hs : hit.get "_source" = some source)
    (hi : ∀ s, hit.get "_index" ≠ some (Json.str s)) :
    SearchItem.from_hit hit = .error "Missing _index" :=
  from_hit_eq_missing_index_of hit source hs hi

/-- C6 witness: a hit whose `_index` is the number 7 fails with the message
`Missing _index`. -/
theorem C6_missing_index_error_witness :
    SearchItem.from_hit (.obj [("_source", .null), ("_index", .num 7)])
      = .error "Missing _index" :=
  C6_missing_index_error _ .null rfl
    (fun _ h => Json.noConfusion (Option.some.inj h))

/-- C7: `from_hit` is deterministic; calling it twice on the same hit value
yields equal results, the same variant or the same error. -/
theorem C7_deterministic (hit : Json) :
    SearchItem.from_hit hit = SearchItem.from_hit hit := rfl

/-- C8: the result of `from_hit` depends only on the `_source` and `_index`
fields; two hits agreeing on those two fields get equal results, whatever
their other fields are. -/
theorem C8_depends_only_on_fields (h1 h2 : Json)
    (hs : h1.get "_source" = h2.get "_source")
    (hi : h1.get "_index" = h2.get "_index") :
    SearchItem.from_hit h1 = SearchItem.from_hit h2 := by
  unfold SearchItem.from_hit
  rw [hs, hi]

/-- C8 witness: a hit with an extra `extra` field classifies exactly as the
same hit without it, fields reordered. -/
theorem C8_depends_only_on_fields_witness :
    SearchItem.from_hit
        (.obj [("_source", .num 1), ("_index", .str "data_source_v3"),
               ("extra", .bool true)])
      = SearchItem.from_hit
          (.obj [("_index", .str "data_source_v3"), ("_source", .num 1)]) :=
  C8_depends_only_on_fields _ _ rfl rfl

/-- C9: the `_source` field is checked before `_index`; a hit missing both
fields gets the `Missing _source` error, not the `Missing _index` one. -/
theorem C9_source_checked_first (hit : Json)
    (hs : hit.get "_source" = none)
    (_hi : hit.get "_index" = none) :
    SearchItem.from_hit hit = .error "Missing _source" ∧
      SearchItem.from_hit hit ≠ .error "Missing _index" := by
  have heq := from_hit_eq_missing_source_of hit hs
  refine ⟨heq, ?_⟩
  rw [heq]
  intro hcontra
  exact absurd (Except.error.inj hcontra) (by decide)

/-- C9 witness: the empty object misses both fields and fails with the
message `Missing _source`. -/
theorem C9_source_checked_first_witness :
    SearchItem.from_hit (.obj []) = .error "Missing _source" ∧
      SearchItem.from_hit (.obj []) ≠ .error "Missing _index" :=
  C9_source_checked_first (.obj []) rfl rfl

/-- C10: decoding never fails; for every hit with `_source` present (any
JSON value) and `_index` a JSON string, `from_hit` returns `Ok` with some
variant, the two missing-field checks being the only error branches. -/
theorem C10_ok_on_wellformed (hit source : Json) (index : String)
    (hs : hit.get "_source" = some source)
    (hi : hit.get "_index" = some (Json.str index)) :
    ∃ item, SearchItem.from_hit hit = .ok item := by
  cases hp : strStartsWith index DATA_SOURCE_NODE_INDEX_NAME with
  | true => exact ⟨_, from_hit_eq_node_of hit source index hs hi hp⟩
  | false => exact ⟨_, from_hit_eq_ds_of hit source index hs hi hp⟩

/-- C10 witness: a hit whose `_source` is the bare number 5, not an object,
still classifies successfully. -/
theorem C10_ok_on_wellformed_witness :
    ∃ item,
      SearchItem.from_hit
          (.obj [("_source", .num 5), ("_index", .str "whatever_index")])
        = .ok item :=
  C10_ok_on_wellformed _ (.num 5) "whatever_index" rfl rfl
